import Mathlib

/-!
Shallow embedding of `src/EX/ex11_bank/bank.py`.

Python objects live on a heap and are compared by identity (`Person`, `Bank`
and `Account` define no `__eq__`), so the embedding gives every person, bank
and account a numeric id and keeps the whole program state in a `World`
record of total maps from ids to records.  Every mutating method of the
source becomes a function `World → ... → World × Option Err` whose state
component persists even when the method raises (Python exceptions do not
roll anything back).

Monetary amounts are typed `float` in the source; every constant in the
program (the flat fee 5, the guards against non-positive amounts) is an
integer and the code uses only ordering, addition, subtraction, negation and
`abs`, so amounts are modelled as `Int`.  Dates are modelled as `Int`
(the code only compares them with `<=`).  The random account `number` is
irrelevant to every claim and is modelled as the empty string.

The source raises `PersonError` and `TransactionError`; the spec's
`InvalidAgeError` corresponds to `PersonError`, and `InvalidAmountError`,
`InsufficientFundsError` and `InvalidTransferError` all correspond to
`TransactionError` (the code does not distinguish them).
-/

/-- The two exception classes of `bank.py`. -/
inductive Err where
  | personError
  | transactionError
deriving DecidableEq

abbrev PersonId := Nat
abbrev AccountId := Nat
abbrev BankId := Nat

/-- Python `Person` objects: `first_name`, `last_name`, `_age`, `bank_account`
(`None` until `Bank.add_customer` links an account). -/
structure Person where
  first_name : String
  last_name : String
  _age : Int
  bank_account : Option AccountId
deriving DecidableEq

/-- Source `Person.__init__`: stores the names, then stores `_age` only when
`a >= 1`, otherwise raises `PersonError`; `bank_account` starts as `None`.
A raising constructor yields no object, hence `Except`. -/
def Person.init (first_name last_name : String) (a : Int) : Except Err Person :=
  if 1 ≤ a then
    Except.ok { first_name := first_name, last_name := last_name, _age := a, bank_account := none }
  else
    Except.error Err.personError

/-- The `age` property getter: returns `self._age`. -/
def Person.age (p : Person) : Int := p._age

/-- The `age` property setter: assigns `self._age = value` FIRST and only
then raises `PersonError` when `self._age <= 0`; the mutation survives the
exception. -/
def Person.set_age (p : Person) (value : Int) : Person × Option Err :=
  let p1 : Person := { p with _age := value }
  if p1._age ≤ 0 then (p1, some Err.personError) else (p1, none)

/-- Source `Person.full_name`: `f"{self.first_name} {self.last_name}"`. -/
def Person.full_name (p : Person) : String := p.first_name ++ " " ++ p.last_name

/-- Python `Transaction` objects (immutable; account references become ids). -/
structure Transaction where
  amount : Int
  date : Int
  sender_account : AccountId
  receiver_account : AccountId
  is_from_atm : Bool
deriving DecidableEq

/-- Python `Bank` objects: `name`, `customers` (list of `Person` references, here
ids), `transactions`. -/
structure Bank where
  name : String
  customers : List PersonId
  transactions : List Transaction
deriving DecidableEq

/-- Python `Account` objects.  `_balance` is exposed through the read-only
`balance` property; `number` is random in the source and modelled as a
constant since no claim mentions it. -/
structure Account where
  balance : Int
  person : PersonId
  bank : BankId
  transactions : List Transaction
  number : String
deriving DecidableEq

/-- The whole heap: persons, accounts and banks by id, plus a counter
supplying the id of the next `Account` object allocated. -/
structure World where
  persons : PersonId → Person
  accounts : AccountId → Account
  banks : BankId → Bank
  nextId : Nat

def World.setPerson (w : World) (i : PersonId) (p : Person) : World :=
  { w with persons := fun j => if j = i then p else w.persons j }

def World.setAccount (w : World) (i : AccountId) (a : Account) : World :=
  { w with accounts := fun j => if j = i then a else w.accounts j }

def World.setBank (w : World) (i : BankId) (b : Bank) : World :=
  { w with banks := fun j => if j = i then b else w.banks j }

/-- Effect of `account.transactions.append(t)` for the account object `i`. -/
def World.appendAccountTx (w : World) (i : AccountId) (t : Transaction) : World :=
  w.setAccount i { w.accounts i with transactions := (w.accounts i).transactions ++ [t] }

/-- Effect of `bank.transactions.append(t)` for the bank object `i`. -/
def World.appendBankTx (w : World) (i : BankId) (t : Transaction) : World :=
  w.setBank i { w.banks i with transactions := (w.banks i).transactions ++ [t] }

/-- Source `Bank.add_customer(person)`: when `person not in self.customers`
(identity comparison), allocate `Account(0, person, self)`, set
`person.bank_account` to it, append the person to `customers` and return
`True`; otherwise return `False` with no change. -/
def Bank.add_customer (w : World) (self : BankId) (person : PersonId) : World × Bool :=
  if person ∉ (w.banks self).customers then
    let aid := w.nextId
    let acc : Account := { balance := 0, person := person, bank := self,
                           transactions := [], number := "" }
    let w1 : World := { w with accounts := fun j => if j = aid then acc else w.accounts j,
                               nextId := w.nextId + 1 }
    let w2 := w1.setPerson person { w1.persons person with bank_account := some aid }
    let w3 := w2.setBank self
      { w2.banks self with customers := (w2.banks self).customers ++ [person] }
    (w3, true)
  else
    (w, false)

/-- Source `Account.deposit(amount, is_from_atm=True)`: raise `TransactionError`
when `amount <= 0`; otherwise add `amount` to the balance and, when
`is_from_atm`, append a self-referential `Transaction` to the account's and
its bank's lists. -/
def Account.deposit (w : World) (self : AccountId) (amount : Int) (is_from_atm : Bool)
    (today : Int) : World × Option Err :=
  if amount ≤ 0 then (w, some Err.transactionError)
  else
    let a := w.accounts self
    let w1 := w.setAccount self { a with balance := a.balance + amount }
    if is_from_atm then
      let t : Transaction := { amount := amount, date := today, sender_account := self,
                               receiver_account := self, is_from_atm := is_from_atm }
      let w2 := w1.appendAccountTx self t
      let w3 := w2.appendBankTx a.bank t
      (w3, none)
    else
      (w1, none)

/-- Source `Account.withdraw(amount, is_from_atm=True)`: raise `TransactionError`
when `amount <= 0 or self._balance < amount`; otherwise subtract `amount`
and, when `is_from_atm`, append a self-referential `Transaction` carrying
`-amount`. -/
def Account.withdraw (w : World) (self : AccountId) (amount : Int) (is_from_atm : Bool)
    (today : Int) : World × Option Err :=
  if amount ≤ 0 ∨ (w.accounts self).balance < amount then (w, some Err.transactionError)
  else
    let a := w.accounts self
    let w1 := w.setAccount self { a with balance := a.balance - amount }
    if is_from_atm then
      let t : Transaction := { amount := -amount, date := today, sender_account := self,
                               receiver_account := self, is_from_atm := is_from_atm }
      let w2 := w1.appendAccountTx self t
      let w3 := w2.appendBankTx a.bank t
      (w3, none)
    else
      (w1, none)

/-- Source `Account.transfer(amount, receiver_account)`.  The guard transcribes the
source's `if self._balance >= amount + 5 and self.person !=
receiver_account.person or receiver_account != self:` with Python
precedence, i.e. `(balance ≥ amount + 5 ∧ persons differ) ∨ receiver ≠
self`.  In the then-branch the source builds the `Transaction`, then for
distinct banks calls `self.withdraw(amount + 5, False)` and appends to the
receiver's bank before `receiver_account.deposit(amount, False)`; for a
shared bank it calls `self.withdraw(amount, False)` then the deposit; both
branches finish by appending to the receiver's list, the sender's bank's
list and the sender's list.  An exception from the inner withdraw/deposit
propagates, keeping whatever state changes already happened. -/
def Account.transfer (w : World) (self : AccountId) (amount : Int)
    (receiver_account : AccountId) (today : Int) : World × Option Err :=
  let s := w.accounts self
  let r := w.accounts receiver_account
  if (amount + 5 ≤ s.balance ∧ s.person ≠ r.person) ∨ receiver_account ≠ self then
    let t : Transaction := { amount := amount, date := today, sender_account := self,
                             receiver_account := receiver_account, is_from_atm := false }
    if s.bank ≠ r.bank then
      match Account.withdraw w self (amount + 5) false today with
      | (w1, some e) => (w1, some e)
      | (w1, none) =>
        let w2 := w1.appendBankTx r.bank t
        match Account.deposit w2 receiver_account amount false today with
        | (w3, some e) => (w3, some e)
        | (w3, none) =>
          let w4 := w3.appendAccountTx receiver_account t
          let w5 := w4.appendBankTx s.bank t
          let w6 := w5.appendAccountTx self t
          (w6, none)
    else
      match Account.withdraw w self amount false today with
      | (w1, some e) => (w1, some e)
      | (w1, none) =>
        match Account.deposit w1 receiver_account amount false today with
        | (w3, some e) => (w3, some e)
        | (w3, none) =>
          let w4 := w3.appendAccountTx receiver_account t
          let w5 := w4.appendBankTx s.bank t
          let w6 := w5.appendAccountTx self t
          (w6, none)
  else
    (w, some Err.transactionError)

/-- Source `Account.get_debit_turnover(from_date, to_date)`: fold of the source's
loop; the inner test transcribes `i.amount > 0 and i.is_from_atm or self ==
i.receiver_account and i.is_from_atm is False` with Python precedence. -/
def Account.get_debit_turnover (w : World) (self : AccountId) (from_date to_date : Int) : Int :=
  (w.accounts self).transactions.foldl
    (fun counter i =>
      if from_date ≤ i.date ∧ i.date ≤ to_date then
        if (0 < i.amount ∧ i.is_from_atm = true) ∨
            (self = i.receiver_account ∧ i.is_from_atm = false) then
          counter + i.amount
        else counter
      else counter) 0

/-- Source `Account.get_credit_turnover(from_date, to_date)`: fold of the source's
loop; the inner test transcribes `i.amount < 0 or self == i.sender_account
and i.is_from_atm is False`, subtracting `abs(i.amount)`. -/
def Account.get_credit_turnover (w : World) (self : AccountId) (from_date to_date : Int) : Int :=
  (w.accounts self).transactions.foldl
    (fun counter i =>
      if from_date ≤ i.date ∧ i.date ≤ to_date then
        if i.amount < 0 ∨ (self = i.sender_account ∧ i.is_from_atm = false) then
          counter - |i.amount|
        else counter
      else counter) 0

/-- Source `Account.get_net_turnover`: `debit + credit` over the same window. -/
def Account.get_net_turnover (w : World) (self : AccountId) (from_date to_date : Int) : Int :=
  Account.get_debit_turnover w self from_date to_date +
    Account.get_credit_turnover w self from_date to_date

/-- The money-moving calls of the API, for stating properties of arbitrary
call sequences. -/
inductive Op where
  | deposit (aid : AccountId) (amount : Int) (is_from_atm : Bool) (today : Int)
  | withdraw (aid : AccountId) (amount : Int) (is_from_atm : Bool) (today : Int)
  | transfer (sender : AccountId) (amount : Int) (receiver : AccountId) (today : Int)

/-- Run one API call, discarding the raised-or-not flag (an exception
propagates to the caller, who may go on issuing calls). -/
def stepOp (w : World) (op : Op) : World :=
  match op with
  | Op.deposit aid amount atm today => (Account.deposit w aid amount atm today).1
  | Op.withdraw aid amount atm today => (Account.withdraw w aid amount atm today).1
  | Op.transfer s amount r today => (Account.transfer w s amount r today).1

/-- Run a sequence of API calls. -/
def runOps (w : World) (ops : List Op) : World :=
  ops.foldl stepOp w

/-! ### Projection lemmas for the heap helpers -/

@[simp] theorem World.accounts_setAccount (w : World) (i : AccountId) (a : Account)
    (j : AccountId) : (w.setAccount i a).accounts j = if j = i then a else w.accounts j := rfl

@[simp] theorem World.banks_setAccount (w : World) (i : AccountId) (a : Account) :
    (w.setAccount i a).banks = w.banks := rfl

@[simp] theorem World.persons_setAccount (w : World) (i : AccountId) (a : Account) :
    (w.setAccount i a).persons = w.persons := rfl

@[simp] theorem World.nextId_setAccount (w : World) (i : AccountId) (a : Account) :
    (w.setAccount i a).nextId = w.nextId := rfl

@[simp] theorem World.banks_setBank (w : World) (i : BankId) (b : Bank) (j : BankId) :
    (w.setBank i b).banks j = if j = i then b else w.banks j := rfl

@[simp] theorem World.accounts_setBank (w : World) (i : BankId) (b : Bank) :
    (w.setBank i b).accounts = w.accounts := rfl

@[simp] theorem World.persons_setBank (w : World) (i : BankId) (b : Bank) :
    (w.setBank i b).persons = w.persons := rfl

@[simp] theorem World.nextId_setBank (w : World) (i : BankId) (b : Bank) :
    (w.setBank i b).nextId = w.nextId := rfl

@[simp] theorem World.persons_setPerson (w : World) (i : PersonId) (p : Person)
    (j : PersonId) : (w.setPerson i p).persons j = if j = i then p else w.persons j := rfl

@[simp] theorem World.accounts_setPerson (w : World) (i : PersonId) (p : Person) :
    (w.setPerson i p).accounts = w.accounts := rfl

@[simp] theorem World.banks_setPerson (w : World) (i : PersonId) (p : Person) :
    (w.setPerson i p).banks = w.banks := rfl

@[simp] theorem World.accounts_appendBankTx (w : World) (i : BankId) (t : Transaction) :
    (w.appendBankTx i t).accounts = w.accounts := rfl

@[simp] theorem World.persons_appendBankTx (w : World) (i : BankId) (t : Transaction) :
    (w.appendBankTx i t).persons = w.persons := rfl

@[simp] theorem World.banks_appendBankTx (w : World) (i : BankId) (t : Transaction)
    (j : BankId) : (w.appendBankTx i t).banks j =
      if j = i then { w.banks i with transactions := (w.banks i).transactions ++ [t] }
      else w.banks j := rfl

@[simp] theorem World.banks_appendAccountTx (w : World) (i : AccountId) (t : Transaction) :
    (w.appendAccountTx i t).banks = w.banks := rfl

@[simp] theorem World.persons_appendAccountTx (w : World) (i : AccountId) (t : Transaction) :
    (w.appendAccountTx i t).persons = w.persons := rfl

@[simp] theorem World.accounts_appendAccountTx (w : World) (i : AccountId) (t : Transaction)
    (j : AccountId) : (w.appendAccountTx i t).accounts j =
      if j = i then { w.accounts i with
                      transactions := (w.accounts i).transactions ++ [t] }
      else w.accounts j := by
  by_cases h : j = i <;> simp [World.appendAccountTx, h]

theorem World.balance_appendAccountTx (w : World) (i : AccountId) (t : Transaction)
    (j : AccountId) : ((w.appendAccountTx i t).accounts j).balance =
      (w.accounts j).balance := by
  by_cases h : j = i <;> simp [h]

/-! ### Case equations for `deposit` and `withdraw` -/

theorem Account.deposit_fail (w : World) (self : AccountId) (amount : Int) (atm : Bool)
    (today : Int) (h : amount ≤ 0) :
    Account.deposit w self amount atm today = (w, some Err.transactionError) := by
  simp [Account.deposit, h]

theorem Account.deposit_ok_noatm (w : World) (self : AccountId) (amount today : Int)
    (h : ¬ amount ≤ 0) :
    Account.deposit w self amount false today =
      (w.setAccount self { w.accounts self with
                           balance := (w.accounts self).balance + amount }, none) := by
  simp [Account.deposit, h]

theorem Account.deposit_ok_atm (w : World) (self : AccountId) (amount today : Int)
    (h : ¬ amount ≤ 0) :
    Account.deposit w self amount true today =
      (((w.setAccount self { w.accounts self with
                             balance := (w.accounts self).balance + amount }).appendAccountTx
          self { amount := amount, date := today, sender_account := self,
                 receiver_account := self, is_from_atm := true }).appendBankTx
        (w.accounts self).bank
        { amount := amount, date := today, sender_account := self,
          receiver_account := self, is_from_atm := true }, none) := by
  simp [Account.deposit, h]

theorem Account.withdraw_fail (w : World) (self : AccountId) (amount : Int) (atm : Bool)
    (today : Int) (h : amount ≤ 0 ∨ (w.accounts self).balance < amount) :
    Account.withdraw w self amount atm today = (w, some Err.transactionError) := by
  simp [Account.withdraw, h]

theorem Account.withdraw_ok_noatm (w : World) (self : AccountId) (amount today : Int)
    (h : ¬ (amount ≤ 0 ∨ (w.accounts self).balance < amount)) :
    Account.withdraw w self amount false today =
      (w.setAccount self { w.accounts self with
                           balance := (w.accounts self).balance - amount }, none) := by
  simp [Account.withdraw, h]

theorem Account.withdraw_ok_atm (w : World) (self : AccountId) (amount today : Int)
    (h : ¬ (amount ≤ 0 ∨ (w.accounts self).balance < amount)) :
    Account.withdraw w self amount true today =
      (((w.setAccount self { w.accounts self with
                             balance := (w.accounts self).balance - amount }).appendAccountTx
          self { amount := -amount, date := today, sender_account := self,
                 receiver_account := self, is_from_atm := true }).appendBankTx
        (w.accounts self).bank
        { amount := -amount, date := today, sender_account := self,
          receiver_account := self, is_from_atm := true }, none) := by
  simp [Account.withdraw, h]

/-! ### Case equations for `transfer` -/

/-- The `Transaction` object a `transfer(amount, receiver_account)` call
builds. -/
def transferTx (s r : AccountId) (amount today : Int) : Transaction :=
  { amount := amount, date := today, sender_account := s, receiver_account := r,
    is_from_atm := false }

/-- Transfer to the very same `Account` object: the source's guard is false
(its first disjunct needs distinct persons, its second a distinct object),
so it raises and changes nothing. -/
theorem Account.transfer_self (w : World) (s : AccountId) (amount today : Int) :
    Account.transfer w s amount s today = (w, some Err.transactionError) := by
  simp [Account.transfer]

/-- Distinct receiver object, distinct banks, but the inner
`withdraw(amount + 5, False)` raises: no state change. -/
theorem Account.transfer_cross_nsf (w : World) (s r : AccountId) (amount today : Int)
    (hr : r ≠ s) (hb : (w.accounts s).bank ≠ (w.accounts r).bank)
    (hw : amount + 5 ≤ 0 ∨ (w.accounts s).balance < amount + 5) :
    Account.transfer w s amount r today = (w, some Err.transactionError) := by
  simp [Account.transfer, hr, hb, Account.withdraw_fail, hw]

/-- Distinct receiver object, distinct banks, the withdraw succeeds but the
inner `deposit(amount, False)` raises (`amount ≤ 0` with `-5 < amount`):
the sender has already been debited `amount + 5` and the transaction already
appended to the receiver's bank when the exception propagates. -/
theorem Account.transfer_cross_stuck (w : World) (s r : AccountId) (amount today : Int)
    (hr : r ≠ s) (hb : (w.accounts s).bank ≠ (w.accounts r).bank)
    (hw : ¬ (amount + 5 ≤ 0 ∨ (w.accounts s).balance < amount + 5))
    (hd : amount ≤ 0) :
    Account.transfer w s amount r today =
      ((w.setAccount s { w.accounts s with
          balance := (w.accounts s).balance - (amount + 5) }).appendBankTx
        (w.accounts r).bank (transferTx s r amount today), some Err.transactionError) := by
  simp [Account.transfer, hr, hb, Account.withdraw_ok_noatm, hw,
    Account.deposit_fail, hd, transferTx]

/-- Distinct receiver object, distinct banks, sufficient balance, positive
amount: the successful cross-bank transfer. -/
theorem Account.transfer_cross_ok (w : World) (s r : AccountId) (amount today : Int)
    (hr : r ≠ s) (hb : (w.accounts s).bank ≠ (w.accounts r).bank)
    (hw : amount + 5 ≤ (w.accounts s).balance) (hd : 0 < amount) :
    Account.transfer w s amount r today =
      ((((((w.setAccount s { w.accounts s with
              balance := (w.accounts s).balance - (amount + 5) }).appendBankTx
            (w.accounts r).bank (transferTx s r amount today)).setAccount r
            { w.accounts r with balance := (w.accounts r).balance + amount }).appendAccountTx
            r (transferTx s r amount today)).appendBankTx
            (w.accounts s).bank (transferTx s r amount today)).appendAccountTx
            s (transferTx s r amount today), none) := by
  have hw' : ¬ (amount + 5 ≤ 0 ∨ (w.accounts s).balance < amount + 5) := by omega
  have hd' : ¬ amount ≤ 0 := by omega
  simp [Account.transfer, hr, hb, Account.withdraw_ok_noatm, hw',
    Account.deposit_ok_noatm, hd', transferTx, World.appendBankTx, World.appendAccountTx]

/-- Distinct receiver object, same bank, but `withdraw(amount, False)`
raises: no state change. -/
theorem Account.transfer_same_nsf (w : World) (s r : AccountId) (amount today : Int)
    (hr : r ≠ s) (hb : (w.accounts s).bank = (w.accounts r).bank)
    (hw : amount ≤ 0 ∨ (w.accounts s).balance < amount) :
    Account.transfer w s amount r today = (w, some Err.transactionError) := by
  simp [Account.transfer, hr, hb, Account.withdraw_fail, hw]

/-- Distinct receiver object, same bank, sufficient balance (hence positive
amount): the successful same-bank transfer; the shared bank's list receives
the transaction exactly once. -/
theorem Account.transfer_same_ok (w : World) (s r : AccountId) (amount today : Int)
    (hr : r ≠ s) (hb : (w.accounts s).bank = (w.accounts r).bank)
    (hw : ¬ (amount ≤ 0 ∨ (w.accounts s).balance < amount)) :
    Account.transfer w s amount r today =
      (((((w.setAccount s { w.accounts s with
            balance := (w.accounts s).balance - amount }).setAccount r
            { w.accounts r with balance := (w.accounts r).balance + amount }).appendAccountTx
            r (transferTx s r amount today)).appendBankTx
            (w.accounts s).bank (transferTx s r amount today)).appendAccountTx
            s (transferTx s r amount today), none) := by
  have hd' : ¬ amount ≤ 0 := by omega
  rw [Account.transfer, Account.withdraw_ok_noatm w s amount today hw]
  simp [hr, hb, Account.deposit_ok_noatm, hd', transferTx, World.appendBankTx,
    World.appendAccountTx]

/-! ### Concrete test fixtures -/

/-- A two-account heap: account 0 (person 0, bank 0, balance `bal0`) and
every other id an account with balance `bal1`, person `p1`, bank `b1`; no
bank has customers yet and the next allocated account id is 2. -/
def testWorld (bal0 bal1 : Int) (p1 : PersonId) (b1 : BankId) : World :=
  { persons := fun _ =>
      { first_name := "A", last_name := "B", _age := 30, bank_account := none },
    accounts := fun i =>
      if i = 0 then
        { balance := bal0, person := 0, bank := 0, transactions := [], number := "" }
      else
        { balance := bal1, person := p1, bank := b1, transactions := [], number := "" },
    banks := fun _ => { name := "N", customers := [], transactions := [] },
    nextId := 2 }

/-- A concrete `Person` with a valid age. -/
def p30 : Person := { first_name := "A", last_name := "B", _age := 30, bank_account := none }

/-! ### C2 -/

/-- C2, counterexample: accounts 0 and 1 belong to the same person (person
0), yet `transfer(10)` between them does NOT raise: it succeeds and moves
the money, because the source's `or receiver_account != self` short-circuits
the same-person check for any distinct receiver object. -/
theorem same_person_two_accounts_transfer_not_rejected :
    ((testWorld 100 0 0 0).accounts 0).person = ((testWorld 100 0 0 0).accounts 1).person ∧
    (0 : AccountId) ≠ 1 ∧
    (Account.transfer (testWorld 100 0 0 0) 0 10 1 0).2 = none ∧
    ((Account.transfer (testWorld 100 0 0 0) 0 10 1 0).1.accounts 0).balance = 90 := by
  decide

/-- C2 (amended): a transfer to the sender's own `Account` object always
raises `TransactionError` (the spec's `InvalidTransferError`) and leaves the
whole state unchanged; a transfer between two distinct accounts of the same
person is not rejected. -/
theorem transfer_to_own_account_rejected (w : World) (self : AccountId)
    (amount today : Int) :
    Account.transfer w self amount self today = (w, some Err.transactionError) :=
  Account.transfer_self w self amount today

/-! ### C5 -/

/-- C5, counterexample: `p30` has age 30; setting its age to 0 raises
`PersonError`, but afterwards the observed age is 0, not the previous valid
30 — the setter mutates before validating. -/
theorem age_setter_mutates_before_raising :
    p30.age = 30 ∧
    (p30.set_age 0).2 = some Err.personError ∧
    (p30.set_age 0).1.age = 0 ∧
    (p30.set_age 0).1.age ≠ p30.age := by
  decide

/-- C5 (amended): construction with age `a ≤ 0` raises `PersonError` and
yields no object; construction with `a ≥ 1` succeeds and `age` reads `a`;
setting age to `a ≤ 0` raises `PersonError` but leaves the age equal to the
invalid value `a` just assigned (not the previous valid age); setting
`a ≥ 1` succeeds and `age` reads back `a`. -/
theorem person_age_validation (fn ln : String) (a : Int) (p : Person) :
    (a ≤ 0 → Person.init fn ln a = Except.error Err.personError) ∧
    (1 ≤ a → Person.init fn ln a =
      Except.ok { first_name := fn, last_name := ln, _age := a, bank_account := none }) ∧
    (a ≤ 0 → (p.set_age a).2 = some Err.personError) ∧
    (1 ≤ a → (p.set_age a).2 = none) ∧
    (p.set_age a).1.age = a := by
  refine ⟨fun h => ?_, fun h => ?_, fun h => ?_, fun h => ?_, ?_⟩
  · have h1 : ¬ (1 ≤ a) := by omega
    simp [Person.init, h1]
  · simp [Person.init, h]
  · simp [Person.set_age, h]
  · have h1 : ¬ (a ≤ 0) := by omega
    simp [Person.set_age, h1]
  · simp only [Person.set_age, Person.age]
    split <;> rfl

/-- Witness for `person_age_validation` at ages `-3` and `7`. -/
theorem person_age_validation_witness :
    ((-3 : Int) ≤ 0 ∧ Person.init "A" "B" (-3) = Except.error Err.personError) ∧
    ((1 : Int) ≤ 7 ∧ (p30.set_age 7).2 = none) :=
  ⟨⟨by decide, (person_age_validation "A" "B" (-3) p30).1 (by decide)⟩,
   ⟨by decide, (person_age_validation "A" "B" 7 p30).2.2.2.1 (by decide)⟩⟩

/-! ### C7 -/

/-- C7: `withdraw(amount, is_from_atm)` raises `TransactionError` exactly
when `amount ≤ 0` or `balance < amount`; a raising call leaves the whole
state unchanged; a succeeding call decreases the balance by exactly
`amount`, and when ATM-flagged appends the single self-referential
`Transaction` carrying `-amount` to the account's and its bank's lists. -/
theorem withdraw_characterization (w : World) (self : AccountId) (amount : Int)
    (atm : Bool) (today : Int) :
    ((Account.withdraw w self amount atm today).2 = some Err.transactionError ↔
      amount ≤ 0 ∨ (w.accounts self).balance < amount) ∧
    ((amount ≤ 0 ∨ (w.accounts self).balance < amount) →
      Account.withdraw w self amount atm today = (w, some Err.transactionError)) ∧
    (¬ (amount ≤ 0 ∨ (w.accounts self).balance < amount) →
      (Account.withdraw w self amount atm today).2 = none ∧
      ((Account.withdraw w self amount atm today).1.accounts self).balance =
        (w.accounts self).balance - amount ∧
      (atm = true →
        ((Account.withdraw w self amount atm today).1.accounts self).transactions =
          (w.accounts self).transactions ++
            [{ amount := -amount, date := today, sender_account := self,
               receiver_account := self, is_from_atm := true }] ∧
        ((Account.withdraw w self amount atm today).1.banks
            (w.accounts self).bank).transactions =
          (w.banks (w.accounts self).bank).transactions ++
            [{ amount := -amount, date := today, sender_account := self,
               receiver_account := self, is_from_atm := true }])) := by
  by_cases h : amount ≤ 0 ∨ (w.accounts self).balance < amount
  · rw [Account.withdraw_fail w self amount atm today h]
    exact ⟨by simp [h], fun _ => rfl, fun hc => absurd h hc⟩
  · cases atm with
    | false =>
      rw [Account.withdraw_ok_noatm w self amount today h]
      refine ⟨by simp [h], fun hc => absurd hc h, fun _ => ⟨rfl, by simp, ?_⟩⟩
      intro hff
      exact absurd hff (by simp)
    | true =>
      rw [Account.withdraw_ok_atm w self amount today h]
      refine ⟨by simp [h], fun hc => absurd hc h, fun _ => ⟨rfl, by simp, fun _ => ⟨?_, ?_⟩⟩⟩
      · simp
      · simp

/-- Witness for `withdraw_characterization`: withdrawing 30 from balance 100
succeeds and leaves 70; withdrawing 200 raises. -/
theorem withdraw_characterization_witness :
    (¬ ((30 : Int) ≤ 0 ∨ ((testWorld 100 0 1 1).accounts 0).balance < 30) ∧
      ((Account.withdraw (testWorld 100 0 1 1) 0 30 true 5).1.accounts 0).balance = 70) ∧
    (((200 : Int) ≤ 0 ∨ ((testWorld 100 0 1 1).accounts 0).balance < 200) ∧
      Account.withdraw (testWorld 100 0 1 1) 0 200 true 5 =
        (testWorld 100 0 1 1, some Err.transactionError)) :=
  ⟨⟨by decide,
    (((withdraw_characterization (testWorld 100 0 1 1) 0 30 true 5).2.2
        (by decide)).2.1).trans (by decide)⟩,
   ⟨by decide,
    (withdraw_characterization (testWorld 100 0 1 1) 0 200 true 5).2.1 (by decide)⟩⟩

/-! ### C9 and C10: `add_customer` -/

/-- Case equation: adding a person who is already in `customers`. -/
theorem Bank.add_customer_old (w : World) (bid : BankId) (pid : PersonId)
    (h : pid ∈ (w.banks bid).customers) :
    Bank.add_customer w bid pid = (w, false) := by
  simp [Bank.add_customer, h]

/-- The fresh `Account(0, person, self)` object `add_customer` allocates. -/
def freshAccount (bid : BankId) (pid : PersonId) : Account :=
  { balance := 0, person := pid, bank := bid, transactions := [], number := "" }

/-- Case equation: adding a person who is not yet in `customers`. -/
theorem Bank.add_customer_new (w : World) (bid : BankId) (pid : PersonId)
    (h : pid ∉ (w.banks bid).customers) :
    Bank.add_customer w bid pid =
      ((({ persons := w.persons,
           accounts := fun j => if j = w.nextId then freshAccount bid pid else w.accounts j,
           banks := w.banks,
           nextId := w.nextId + 1 } : World).setPerson pid
            { w.persons pid with bank_account := some w.nextId }).setBank bid
            { w.banks bid with customers := (w.banks bid).customers ++ [pid] }, true) := by
  simp [Bank.add_customer, h, freshAccount]

/-- C9: `add_customer` on a person already in this bank's customer list
returns `False` and changes nothing; on a new person it returns `True`,
allocates exactly one fresh zero-balance account at this bank (no other
account object is touched), links `person.bank_account` to it and appends
the person once to `customers`; a second call with the same person then
returns `False` and changes nothing, so the list grows by at most one per
distinct person. -/
theorem add_customer_spec (w : World) (bid : BankId) (pid : PersonId) :
    (pid ∈ (w.banks bid).customers → Bank.add_customer w bid pid = (w, false)) ∧
    (pid ∉ (w.banks bid).customers →
      (Bank.add_customer w bid pid).2 = true ∧
      (Bank.add_customer w bid pid).1.accounts w.nextId = freshAccount bid pid ∧
      ((Bank.add_customer w bid pid).1.persons pid).bank_account = some w.nextId ∧
      ((Bank.add_customer w bid pid).1.banks bid).customers =
        (w.banks bid).customers ++ [pid] ∧
      (∀ j, j ≠ w.nextId → (Bank.add_customer w bid pid).1.accounts j = w.accounts j) ∧
      Bank.add_customer (Bank.add_customer w bid pid).1 bid pid =
        ((Bank.add_customer w bid pid).1, false) ∧
      ((Bank.add_customer w bid pid).1.banks bid).customers.length =
        (w.banks bid).customers.length + 1) := by
  refine ⟨fun h => Bank.add_customer_old w bid pid h, fun h => ?_⟩
  rw [Bank.add_customer_new w bid pid h]
  refine ⟨rfl, by simp, by simp, by simp, fun j hj => by simp [hj], ?_, by simp⟩
  apply Bank.add_customer_old
  simp

/-- Witness for `add_customer_spec`: a fresh person joins bank 0 of
`testWorld`, getting account id 2; adding again fails. -/
theorem add_customer_spec_witness :
    ((5 : PersonId) ∉ ((testWorld 0 0 1 1).banks 0).customers ∧
      (Bank.add_customer (testWorld 0 0 1 1) 0 5).2 = true ∧
      ((Bank.add_customer (testWorld 0 0 1 1) 0 5).1.persons 5).bank_account = some 2) ∧
    Bank.add_customer (Bank.add_customer (testWorld 0 0 1 1) 0 5).1 0 5 =
      ((Bank.add_customer (testWorld 0 0 1 1) 0 5).1, false) := by
  have h := (add_customer_spec (testWorld 0 0 1 1) 0 5).2 (by decide)
  exact ⟨⟨by decide, h.1, h.2.2.1.trans (by decide)⟩, h.2.2.2.2.2.1⟩

/-- C10: calling `add_customer` at a second bank `b2` for a person who is
already a customer of a different bank `b1` succeeds and unconditionally
re-points `person.bank_account` at a fresh zero-balance account at `b2`,
while the person stays in `b1.customers` and the orphaned old account
object is untouched (balance and history intact). -/
theorem add_customer_second_bank (w : World) (b1 b2 : BankId) (pid : PersonId)
    (aid : AccountId)
    (h1 : pid ∈ (w.banks b1).customers)
    (h2 : pid ∉ (w.banks b2).customers)
    (hb : b2 ≠ b1)
    (ha : (w.persons pid).bank_account = some aid)
    (hfresh : aid ≠ w.nextId) :
    (Bank.add_customer w b2 pid).2 = true ∧
    ((Bank.add_customer w b2 pid).1.persons pid).bank_account = some w.nextId ∧
    some w.nextId ≠ (w.persons pid).bank_account ∧
    (Bank.add_customer w b2 pid).1.accounts w.nextId = freshAccount b2 pid ∧
    ((Bank.add_customer w b2 pid).1.banks b1).customers = (w.banks b1).customers ∧
    pid ∈ ((Bank.add_customer w b2 pid).1.banks b1).customers ∧
    (Bank.add_customer w b2 pid).1.accounts aid = w.accounts aid := by
  rw [Bank.add_customer_new w b2 pid h2]
  have hb1 : b1 ≠ b2 := Ne.symm hb
  refine ⟨rfl, by simp, ?_, by simp, by simp [hb1], ?_, by simp [hfresh]⟩
  · rw [ha]
    simp [Ne.symm hfresh]
  · simp only [World.banks_setBank, World.banks_setPerson]
    rw [if_neg hb1]
    exact h1

/-- Witness for `add_customer_second_bank`: person 5 joins bank 0 (account
id 2), then bank 1 re-registers them with fresh account id 3; bank 0 still
lists them and account 2 is untouched. -/
theorem add_customer_second_bank_witness :
    ((5 : PersonId) ∈ (((Bank.add_customer (testWorld 0 0 1 1) 0 5).1).banks 0).customers ∧
      ((Bank.add_customer (Bank.add_customer (testWorld 0 0 1 1) 0 5).1 1 5).1.persons
          5).bank_account = some 3) ∧
    (Bank.add_customer (Bank.add_customer (testWorld 0 0 1 1) 0 5).1 1 5).1.accounts 2 =
      ((Bank.add_customer (testWorld 0 0 1 1) 0 5).1).accounts 2 := by
  have h := add_customer_second_bank ((Bank.add_customer (testWorld 0 0 1 1) 0 5).1)
    0 1 5 2 (by decide) (by decide) (by decide) (by decide) (by decide)
  exact ⟨⟨by decide, h.2.1.trans (by decide)⟩, h.2.2.2.2.2.2⟩

/-! ### C1 -/

/-- C1, counterexample: a same-bank transfer of 10 with sender balance 10
(less than `amount + 5 = 15`) between accounts of different persons does NOT
raise — it succeeds, because the guard's `or receiver_account != self`
short-circuits the fee check for any distinct receiver object. -/
theorem transfer_succeeds_below_fee_threshold :
    (0 : AccountId) ≠ 1 ∧
    ¬ ((10 : Int) + 5 ≤ ((testWorld 10 0 1 0).accounts 0).balance) ∧
    (Account.transfer (testWorld 10 0 1 0) 0 10 1 0).2 = none := by
  decide

/-- C1 (amended): `transfer(amount, receiver_account)` succeeds iff the
receiver is a distinct `Account` object, `amount > 0`, and the sender's
balance is at least `amount + 5` when the two accounts are at different
banks and at least `amount` when they share a bank; otherwise it raises
`TransactionError` (the spec's `InvalidTransferError`). -/
theorem transfer_success_iff (w : World) (s r : AccountId) (amount today : Int) :
    (Account.transfer w s amount r today).2 =
      (if r ≠ s ∧ 0 < amount ∧
          ((w.accounts s).bank ≠ (w.accounts r).bank →
            amount + 5 ≤ (w.accounts s).balance) ∧
          ((w.accounts s).bank = (w.accounts r).bank →
            amount ≤ (w.accounts s).balance)
        then none else some Err.transactionError) := by
  by_cases hr : r = s
  · subst hr
    have hc : ¬ (r ≠ r ∧ 0 < amount ∧
        ((w.accounts r).bank ≠ (w.accounts r).bank → amount + 5 ≤ (w.accounts r).balance) ∧
        ((w.accounts r).bank = (w.accounts r).bank → amount ≤ (w.accounts r).balance)) := by
      rintro ⟨hne, -⟩
      exact hne rfl
    rw [Account.transfer_self w r amount today, if_neg hc]
  · by_cases hb : (w.accounts s).bank = (w.accounts r).bank
    · by_cases hw : amount ≤ 0 ∨ (w.accounts s).balance < amount
      · have hc : ¬ (r ≠ s ∧ 0 < amount ∧
            ((w.accounts s).bank ≠ (w.accounts r).bank → amount + 5 ≤ (w.accounts s).balance) ∧
            ((w.accounts s).bank = (w.accounts r).bank → amount ≤ (w.accounts s).balance)) := by
          rintro ⟨-, hpos, -, hle⟩
          have := hle hb
          omega
        rw [Account.transfer_same_nsf w s r amount today hr hb hw, if_neg hc]
      · have hc : r ≠ s ∧ 0 < amount ∧
            ((w.accounts s).bank ≠ (w.accounts r).bank → amount + 5 ≤ (w.accounts s).balance) ∧
            ((w.accounts s).bank = (w.accounts r).bank → amount ≤ (w.accounts s).balance) :=
          ⟨hr, by omega, fun hcon => absurd hb hcon, fun _ => by omega⟩
        rw [Account.transfer_same_ok w s r amount today hr hb hw, if_pos hc]
    · by_cases h1 : amount + 5 ≤ 0 ∨ (w.accounts s).balance < amount + 5
      · have hc : ¬ (r ≠ s ∧ 0 < amount ∧
            ((w.accounts s).bank ≠ (w.accounts r).bank → amount + 5 ≤ (w.accounts s).balance) ∧
            ((w.accounts s).bank = (w.accounts r).bank → amount ≤ (w.accounts s).balance)) := by
          rintro ⟨-, hpos, hge, -⟩
          have := hge hb
          omega
        rw [Account.transfer_cross_nsf w s r amount today hr hb h1, if_neg hc]
      · by_cases h2 : amount ≤ 0
        · have hc : ¬ (r ≠ s ∧ 0 < amount ∧
              ((w.accounts s).bank ≠ (w.accounts r).bank → amount + 5 ≤ (w.accounts s).balance) ∧
              ((w.accounts s).bank = (w.accounts r).bank → amount ≤ (w.accounts s).balance)) := by
            rintro ⟨-, hpos, -⟩
            omega
          rw [Account.transfer_cross_stuck w s r amount today hr hb h1 h2, if_neg hc]
        · have hc : r ≠ s ∧ 0 < amount ∧
              ((w.accounts s).bank ≠ (w.accounts r).bank → amount + 5 ≤ (w.accounts s).balance) ∧
              ((w.accounts s).bank = (w.accounts r).bank → amount ≤ (w.accounts s).balance) :=
            ⟨hr, by omega, fun _ => by omega, fun hcon => absurd hcon hb⟩
          rw [Account.transfer_cross_ok w s r amount today hr hb (by omega) (by omega), if_pos hc]

/-! ### C3 -/

/-- The world of C3's counterexample: sender account 0 (balance 100, bank 0)
and receiver account 1 at bank 1. -/
def cw3 : World := testWorld 100 0 1 1

/-- C3, counterexample: the cross-bank call `transfer(-1)` raises, yet the
sender's balance has dropped from 100 to 96 and the receiver's bank's
transaction list has grown — the failure is not all-or-nothing. -/
theorem failed_transfer_with_partial_effects :
    (Account.transfer cw3 0 (-1) 1 0).2 = some Err.transactionError ∧
    (cw3.accounts 0).balance = 100 ∧
    ((Account.transfer cw3 0 (-1) 1 0).1.accounts 0).balance = 96 ∧
    (cw3.banks 1).transactions.length = 0 ∧
    ((Account.transfer cw3 0 (-1) 1 0).1.banks 1).transactions.length = 1 := by
  decide

/-- C3 (amended): a raising `transfer` call leaves the whole state exactly
as it was, except in one case: a cross-bank call with a distinct receiver
object, `-5 < amount ≤ 0` and `balance ≥ amount + 5`, where the inner
withdraw has already debited the sender by `amount + 5` and the transaction
has already been appended to the receiver's bank's list when the inner
deposit raises. -/
theorem failing_transfer_state (w : World) (s r : AccountId) (amount today : Int)
    (hfail : (Account.transfer w s amount r today).2 = some Err.transactionError) :
    Account.transfer w s amount r today = (w, some Err.transactionError) ∨
    (r ≠ s ∧ (w.accounts s).bank ≠ (w.accounts r).bank ∧
      -5 < amount ∧ amount ≤ 0 ∧ amount + 5 ≤ (w.accounts s).balance ∧
      Account.transfer w s amount r today =
        ((w.setAccount s { w.accounts s with
            balance := (w.accounts s).balance - (amount + 5) }).appendBankTx
          (w.accounts r).bank (transferTx s r amount today), some Err.transactionError)) := by
  by_cases hr : r = s
  · subst hr
    exact Or.inl (Account.transfer_self _ _ _ _)
  · by_cases hb : (w.accounts s).bank = (w.accounts r).bank
    · by_cases hw : amount ≤ 0 ∨ (w.accounts s).balance < amount
      · exact Or.inl (Account.transfer_same_nsf w s r amount today hr hb hw)
      · rw [Account.transfer_same_ok w s r amount today hr hb hw] at hfail
        simp at hfail
    · by_cases h1 : amount + 5 ≤ 0 ∨ (w.accounts s).balance < amount + 5
      · exact Or.inl (Account.transfer_cross_nsf w s r amount today hr hb h1)
      · by_cases h2 : amount ≤ 0
        · exact Or.inr ⟨hr, hb, by omega, h2, by omega,
            Account.transfer_cross_stuck w s r amount today hr hb h1 h2⟩
        · rw [Account.transfer_cross_ok w s r amount today hr hb (by omega) (by omega)]
            at hfail
          simp at hfail

/-- Witness for `failing_transfer_state` at the counterexample input. -/
theorem failing_transfer_state_witness :
    (Account.transfer cw3 0 (-1) 1 0).2 = some Err.transactionError ∧
    (Account.transfer cw3 0 (-1) 1 0 = (cw3, some Err.transactionError) ∨
      ((1 : AccountId) ≠ 0 ∧ (cw3.accounts 0).bank ≠ (cw3.accounts 1).bank ∧
        (-5 : Int) < -1 ∧ (-1 : Int) ≤ 0 ∧ -1 + 5 ≤ (cw3.accounts 0).balance ∧
        Account.transfer cw3 0 (-1) 1 0 =
          ((cw3.setAccount 0 { cw3.accounts 0 with
              balance := (cw3.accounts 0).balance - (-1 + 5) }).appendBankTx
            (cw3.accounts 1).bank (transferTx 0 1 (-1) 0), some Err.transactionError))) :=
  ⟨by decide, failing_transfer_state cw3 0 1 (-1) 0 (by decide)⟩

/-! ### C4 -/

/-- C4: effects of a successful transfer of a positive amount.  Cross-bank:
the sender is debited `amount + 5`, the receiver credited `amount`, and the
single transaction (positive amount, not ATM) is appended once to the
sender's history, the receiver's history, the sender's bank's list and the
receiver's bank's list.  Same bank: the sender is debited exactly `amount`,
the receiver credited `amount`, and the transaction is appended to both
account histories and exactly once to the shared bank's list. -/
theorem successful_transfer_effects (w : World) (s r : AccountId) (amount today : Int)
    (hpos : 0 < amount)
    (hs : (Account.transfer w s amount r today).2 = none) :
    ((w.accounts s).bank ≠ (w.accounts r).bank →
      ((Account.transfer w s amount r today).1.accounts s).balance =
        (w.accounts s).balance - (amount + 5) ∧
      ((Account.transfer w s amount r today).1.accounts r).balance =
        (w.accounts r).balance + amount ∧
      ((Account.transfer w s amount r today).1.accounts s).transactions =
        (w.accounts s).transactions ++ [transferTx s r amount today] ∧
      ((Account.transfer w s amount r today).1.accounts r).transactions =
        (w.accounts r).transactions ++ [transferTx s r amount today] ∧
      ((Account.transfer w s amount r today).1.banks (w.accounts s).bank).transactions =
        (w.banks (w.accounts s).bank).transactions ++ [transferTx s r amount today] ∧
      ((Account.transfer w s amount r today).1.banks (w.accounts r).bank).transactions =
        (w.banks (w.accounts r).bank).transactions ++ [transferTx s r amount today]) ∧
    ((w.accounts s).bank = (w.accounts r).bank →
      ((Account.transfer w s amount r today).1.accounts s).balance =
        (w.accounts s).balance - amount ∧
      ((Account.transfer w s amount r today).1.accounts r).balance =
        (w.accounts r).balance + amount ∧
      ((Account.transfer w s amount r today).1.accounts s).transactions =
        (w.accounts s).transactions ++ [transferTx s r amount today] ∧
      ((Account.transfer w s amount r today).1.accounts r).transactions =
        (w.accounts r).transactions ++ [transferTx s r amount today] ∧
      ((Account.transfer w s amount r today).1.banks (w.accounts s).bank).transactions =
        (w.banks (w.accounts s).bank).transactions ++ [transferTx s r amount today]) ∧
    0 < (transferTx s r amount today).amount ∧
    (transferTx s r amount today).is_from_atm = false ∧
    (transferTx s r amount today).sender_account = s ∧
    (transferTx s r amount today).receiver_account = r := by
  have hr : r ≠ s := by
    intro he
    subst he
    rw [Account.transfer_self _ _ _ _] at hs
    simp at hs
  have hsr : s ≠ r := Ne.symm hr
  refine ⟨fun hb => ?_, fun hb => ?_, hpos, rfl, rfl, rfl⟩
  · have h1 : ¬ (amount + 5 ≤ 0 ∨ (w.accounts s).balance < amount + 5) := by
      intro h1
      rw [Account.transfer_cross_nsf w s r amount today hr hb h1] at hs
      simp at hs
    rw [Account.transfer_cross_ok w s r amount today hr hb (by omega) hpos]
    refine ⟨?_, ?_, ?_, ?_, ?_, ?_⟩ <;> simp [hsr, hr, hb, Ne.symm hb]
  · have hw : ¬ (amount ≤ 0 ∨ (w.accounts s).balance < amount) := by
      intro hw
      rw [Account.transfer_same_nsf w s r amount today hr hb hw] at hs
      simp at hs
    rw [Account.transfer_same_ok w s r amount today hr hb hw]
    refine ⟨?_, ?_, ?_, ?_, ?_⟩ <;> simp [hsr, hr, hb]

/-- Witness for `successful_transfer_effects`: a cross-bank transfer of 10
from balance 100 leaves 85/10, a same-bank one leaves 90/10. -/
theorem successful_transfer_effects_witness :
    ((0 : Int) < 10 ∧ (Account.transfer (testWorld 100 0 1 1) 0 10 1 0).2 = none ∧
      ((testWorld 100 0 1 1).accounts 0).bank ≠ ((testWorld 100 0 1 1).accounts 1).bank ∧
      ((Account.transfer (testWorld 100 0 1 1) 0 10 1 0).1.accounts 0).balance = 85 ∧
      ((Account.transfer (testWorld 100 0 1 1) 0 10 1 0).1.accounts 1).balance = 10) ∧
    ((Account.transfer (testWorld 100 0 1 0) 0 10 1 0).2 = none ∧
      ((Account.transfer (testWorld 100 0 1 0) 0 10 1 0).1.accounts 0).balance = 90 ∧
      ((Account.transfer (testWorld 100 0 1 0) 0 10 1 0).1.banks 0).transactions.length
        = 1) := by
  have hc := (successful_transfer_effects (testWorld 100 0 1 1) 0 1 10 0
    (by decide) (by decide)).1 (by decide)
  have hsame := (successful_transfer_effects (testWorld 100 0 1 0) 0 1 10 0
    (by decide) (by decide)).2.1 (by decide)
  exact ⟨⟨by decide, by decide, by decide, hc.1.trans (by decide), hc.2.1.trans (by decide)⟩,
    ⟨by decide, hsame.1.trans (by decide), by decide⟩⟩

/-! ### C6 -/

/-- Every account object of the heap has a non-negative balance. -/
def NonNegBalances (w : World) : Prop := ∀ i, 0 ≤ (w.accounts i).balance

theorem nonNeg_setAccount (w : World) (i : AccountId) (a : Account)
    (h : NonNegBalances w) (ha : 0 ≤ a.balance) : NonNegBalances (w.setAccount i a) := by
  intro j
  simp only [World.accounts_setAccount]
  split
  · exact ha
  · exact h j

theorem nonNeg_appendAccountTx (w : World) (i : AccountId) (t : Transaction)
    (h : NonNegBalances w) : NonNegBalances (w.appendAccountTx i t) := by
  intro j
  rw [World.balance_appendAccountTx]
  exact h j

theorem nonNeg_appendBankTx (w : World) (i : BankId) (t : Transaction)
    (h : NonNegBalances w) : NonNegBalances (w.appendBankTx i t) := fun j => h j

theorem nonNeg_deposit (w : World) (self : AccountId) (amount : Int) (atm : Bool)
    (today : Int) (h : NonNegBalances w) :
    NonNegBalances (Account.deposit w self amount atm today).1 := by
  by_cases ha : amount ≤ 0
  · rw [Account.deposit_fail w self amount atm today ha]
    exact h
  · cases atm with
    | false =>
      rw [Account.deposit_ok_noatm w self amount today ha]
      refine nonNeg_setAccount _ _ _ h ?_
      show 0 ≤ (w.accounts self).balance + amount
      have h0 := h self
      omega
    | true =>
      rw [Account.deposit_ok_atm w self amount today ha]
      refine nonNeg_appendBankTx _ _ _ (nonNeg_appendAccountTx _ _ _
        (nonNeg_setAccount _ _ _ h ?_))
      show 0 ≤ (w.accounts self).balance + amount
      have h0 := h self
      omega

theorem nonNeg_withdraw (w : World) (self : AccountId) (amount : Int) (atm : Bool)
    (today : Int) (h : NonNegBalances w) :
    NonNegBalances (Account.withdraw w self amount atm today).1 := by
  by_cases ha : amount ≤ 0 ∨ (w.accounts self).balance < amount
  · rw [Account.withdraw_fail w self amount atm today ha]
    exact h
  · cases atm with
    | false =>
      rw [Account.withdraw_ok_noatm w self amount today ha]
      refine nonNeg_setAccount _ _ _ h ?_
      show 0 ≤ (w.accounts self).balance - amount
      omega
    | true =>
      rw [Account.withdraw_ok_atm w self amount today ha]
      refine nonNeg_appendBankTx _ _ _ (nonNeg_appendAccountTx _ _ _
        (nonNeg_setAccount _ _ _ h ?_))
      show 0 ≤ (w.accounts self).balance - amount
      omega

theorem nonNeg_transfer (w : World) (s : AccountId) (amount : Int) (r : AccountId)
    (today : Int) (h : NonNegBalances w) :
    NonNegBalances (Account.transfer w s amount r today).1 := by
  by_cases hr : r = s
  · subst hr
    rw [Account.transfer_self _ _ _ _]
    exact h
  · by_cases hb : (w.accounts s).bank = (w.accounts r).bank
    · by_cases hw : amount ≤ 0 ∨ (w.accounts s).balance < amount
      · rw [Account.transfer_same_nsf w s r amount today hr hb hw]
        exact h
      · rw [Account.transfer_same_ok w s r amount today hr hb hw]
        refine nonNeg_appendAccountTx _ _ _ (nonNeg_appendBankTx _ _ _
          (nonNeg_appendAccountTx _ _ _
            (nonNeg_setAccount _ _ _ (nonNeg_setAccount _ _ _ h ?_) ?_)))
        · show 0 ≤ (w.accounts s).balance - amount
          omega
        · show 0 ≤ (w.accounts r).balance + amount
          have h0 := h r
          omega
    · by_cases h1 : amount + 5 ≤ 0 ∨ (w.accounts s).balance < amount + 5
      · rw [Account.transfer_cross_nsf w s r amount today hr hb h1]
        exact h
      · by_cases h2 : amount ≤ 0
        · rw [Account.transfer_cross_stuck w s r amount today hr hb h1 h2]
          refine nonNeg_appendBankTx _ _ _ (nonNeg_setAccount _ _ _ h ?_)
          show 0 ≤ (w.accounts s).balance - (amount + 5)
          omega
        · rw [Account.transfer_cross_ok w s r amount today hr hb (by omega) (by omega)]
          refine nonNeg_appendAccountTx _ _ _ (nonNeg_appendBankTx _ _ _
            (nonNeg_appendAccountTx _ _ _ (nonNeg_setAccount _ _ _
              (nonNeg_appendBankTx _ _ _ (nonNeg_setAccount _ _ _ h ?_)) ?_)))
          · show 0 ≤ (w.accounts s).balance - (amount + 5)
            omega
          · show 0 ≤ (w.accounts r).balance + amount
            have h0 := h r
            omega

theorem nonNeg_stepOp (w : World) (op : Op) (h : NonNegBalances w) :
    NonNegBalances (stepOp w op) := by
  cases op with
  | deposit aid amount atm today => exact nonNeg_deposit w aid amount atm today h
  | withdraw aid amount atm today => exact nonNeg_withdraw w aid amount atm today h
  | transfer s amount r today => exact nonNeg_transfer w s amount r today h

/-- C6: from any heap in which every account balance is non-negative, no
sequence of `deposit`, `withdraw` and `transfer` calls — succeeding or
raising — can make any account's balance negative. -/
theorem balances_never_negative (w : World) (ops : List Op) (h : NonNegBalances w) :
    NonNegBalances (runOps w ops) := by
  induction ops generalizing w with
  | nil => exact h
  | cons op ops ih => exact ih _ (nonNeg_stepOp w op h)

/-- The start heap of C6's witness: every account holds 100. -/
def w6 : World :=
  { persons := fun _ => p30,
    accounts := fun _ =>
      { balance := 100, person := 0, bank := 0, transactions := [], number := "" },
    banks := fun _ => { name := "N", customers := [], transactions := [] },
    nextId := 0 }

/-- Witness for `balances_never_negative` on a mixed run of succeeding and
raising calls. -/
theorem balances_never_negative_witness :
    NonNegBalances w6 ∧
    0 ≤ ((runOps w6 [Op.deposit 0 50 true 0, Op.transfer 0 20 1 1,
      Op.withdraw 1 200 true 2, Op.transfer 0 (-1) 1 3]).accounts 0).balance :=
  have h : NonNegBalances w6 := fun i => by
    show (0 : Int) ≤ 100
    decide
  ⟨h, balances_never_negative w6 [Op.deposit 0 50 true 0, Op.transfer 0 20 1 1,
      Op.withdraw 1 200 true 2, Op.transfer 0 (-1) 1 3] h 0⟩

/-! ### C8 -/

/-- Modelled from the spec sentence for `get_credit_turnover` (the claim's
wording): the negative of (the magnitudes of the window's ATM withdrawals —
negative-amount ATM transactions — plus the amounts of the window's non-ATM
transfers this account sent).  Compared below with the source's
`Account.get_credit_turnover`. -/
def credit_turnover_claim (w : World) (self : AccountId) (from_date to_date : Int) : Int :=
  -((((w.accounts self).transactions.filter (fun i =>
        decide (from_date ≤ i.date ∧ i.date ≤ to_date) &&
          (i.is_from_atm && decide (i.amount < 0)))).map (fun i => |i.amount|)).sum
    + (((w.accounts self).transactions.filter (fun i =>
        decide (from_date ≤ i.date ∧ i.date ≤ to_date) &&
          (!i.is_from_atm && decide (self = i.sender_account)))).map
        (fun i => i.amount)).sum)

theorem credit_foldl_claim (self : AccountId) (from_date to_date : Int)
    (ts : List Transaction) (h : ∀ i ∈ ts, i.is_from_atm = false → 0 < i.amount)
    (c : Int) :
    ts.foldl (fun counter i =>
      if from_date ≤ i.date ∧ i.date ≤ to_date then
        if i.amount < 0 ∨ (self = i.sender_account ∧ i.is_from_atm = false) then
          counter - |i.amount|
        else counter
      else counter) c =
    c - (((ts.filter (fun i => decide (from_date ≤ i.date ∧ i.date ≤ to_date) &&
            (i.is_from_atm && decide (i.amount < 0)))).map (fun i => |i.amount|)).sum
        + ((ts.filter (fun i => decide (from_date ≤ i.date ∧ i.date ≤ to_date) &&
            (!i.is_from_atm && decide (self = i.sender_account)))).map
            (fun i => i.amount)).sum) := by
  induction ts generalizing c with
  | nil => simp
  | cons t ts ih =>
    have ht := h t (List.mem_cons_self t ts)
    have hts : ∀ i ∈ ts, i.is_from_atm = false → 0 < i.amount :=
      fun i hi => h i (List.mem_cons_of_mem t hi)
    rw [List.foldl_cons, List.filter_cons, List.filter_cons]
    by_cases hwin : from_date ≤ t.date ∧ t.date ≤ to_date
    · by_cases hneg : t.amount < 0
      · have hatm : t.is_from_atm = true := by
          cases hfa : t.is_from_atm
          · have := ht hfa
            omega
          · rfl
        rw [if_pos hwin, if_pos (Or.inl hneg), ih hts]
        simp [hwin, hneg, hatm]
        ring
      · by_cases hsend : self = t.sender_account ∧ t.is_from_atm = false
        · have hpos : 0 < t.amount := ht hsend.2
          have habs : |t.amount| = t.amount := abs_of_pos hpos
          rw [if_pos hwin, if_pos (Or.inr hsend), ih hts]
          simp [hwin, hneg, hsend.1, hsend.2, habs]
          ring
        · rw [if_pos hwin]
          rw [if_neg (by tauto)]
          rw [ih hts]
          rcases Bool.eq_false_or_eq_true t.is_from_atm with hfa | hfa
          · simp [hwin, hneg, hfa]
          · have hse : self ≠ t.sender_account := fun hse => hsend ⟨hse, hfa⟩
            simp [hwin, hneg, hfa, hse]
    · rw [if_neg hwin, ih hts]
      simp [hwin]

/-- The account history of C8's concrete check: an ATM deposit of 100 on
day 5 followed by an ATM withdrawal of 30 on day 6, on account 0. -/
def w8 : World :=
  (Account.withdraw (Account.deposit (testWorld 0 0 1 1) 0 100 true 5).1 0 30 true 6).1

/-- C8: `get_net_turnover` is the sum of `get_debit_turnover` and
`get_credit_turnover` over the same window; on any account history whose
non-ATM transactions carry positive amounts (true of every history the API
produces, ATM records being the only signed ones), the credit turnover is
exactly the claim's description — minus (ATM withdrawals' magnitudes plus
non-ATM transfers sent); and the concrete deposit-100/withdraw-30 window
nets 70. -/
theorem net_turnover_decomposition :
    (∀ (w : World) (self : AccountId) (from_date to_date : Int),
      Account.get_net_turnover w self from_date to_date =
        Account.get_debit_turnover w self from_date to_date +
          Account.get_credit_turnover w self from_date to_date) ∧
    (∀ (w : World) (self : AccountId) (from_date to_date : Int),
      (∀ i ∈ (w.accounts self).transactions, i.is_from_atm = false → 0 < i.amount) →
      Account.get_credit_turnover w self from_date to_date =
        credit_turnover_claim w self from_date to_date) ∧
    Account.get_net_turnover w8 0 0 10 = 70 := by
  refine ⟨fun _ _ _ _ => rfl, fun w self f t h => ?_, by decide⟩
  unfold Account.get_credit_turnover credit_turnover_claim
  rw [credit_foldl_claim self f t _ h 0]
  ring

/-- Witness for `net_turnover_decomposition` on the concrete history `w8`. -/
theorem net_turnover_decomposition_witness :
    (∀ i ∈ (w8.accounts 0).transactions, i.is_from_atm = false → 0 < i.amount) ∧
    Account.get_credit_turnover w8 0 0 10 = credit_turnover_claim w8 0 0 10 ∧
    Account.get_credit_turnover w8 0 0 10 = -30 :=
  ⟨by decide, net_turnover_decomposition.2.1 w8 0 0 10 (by decide), by decide⟩

/-- Witness for `transfer_success_iff` at a concrete same-bank input. -/
theorem transfer_success_iff_witness :
    (Account.transfer (testWorld 100 0 1 0) 0 10 1 0).2 =
      (if (1 : AccountId) ≠ 0 ∧ (0 : Int) < 10 ∧
          (((testWorld 100 0 1 0).accounts 0).bank ≠ ((testWorld 100 0 1 0).accounts 1).bank →
            10 + 5 ≤ ((testWorld 100 0 1 0).accounts 0).balance) ∧
          (((testWorld 100 0 1 0).accounts 0).bank = ((testWorld 100 0 1 0).accounts 1).bank →
            10 ≤ ((testWorld 100 0 1 0).accounts 0).balance)
        then none else some Err.transactionError) :=
  transfer_success_iff (testWorld 100 0 1 0) 0 1 10 0

/-- Witness for `transfer_to_own_account_rejected` at a concrete input. -/
theorem transfer_to_own_account_rejected_witness :
    Account.transfer (testWorld 100 0 1 0) 0 10 0 0 =
      (testWorld 100 0 1 0, some Err.transactionError) :=
  transfer_to_own_account_rejected (testWorld 100 0 1 0) 0 10 0
